import Mathlib

/-!
# Verification of `analyze_health_data.py`

A shallow embedding of the health-sensor analysis script. Readings are
modelled as records, the dataset as a list of readings, real arithmetic as
exact rationals (`ℚ`), and the filesystem as an explicit state value.
The definitions mirror the Python source function by function:
`load_data`, `calculate_statistics`, `find_abnormal_readings`,
`generate_report`, `save_report`, `main`.
-/

namespace HealthData

/-- One row of the structured array produced by `load_data`, per the dtype
`[('patient_id','U10'), ('timestamp','U20'), ('heart_rate','i4'),
('blood_pressure_systolic','i4'), ('blood_pressure_diastolic','i4'),
('temperature','f4'), ('glucose_level','i4'), ('sensor_id','U10')]`.
Integer columns are `ℤ`; the float column is `Option ℚ` where `none`
stands for NaN (the fill value `np.genfromtxt` uses for an unconvertible
float field). -/
structure Reading where
  patient_id : String
  timestamp : String
  heart_rate : Int
  blood_pressure_systolic : Int
  blood_pressure_diastolic : Int
  temperature : Option Rat
  glucose_level : Int
  sensor_id : String
deriving Repr, DecidableEq

/-- The dataset: the ordered rows of the structured array. -/
abbrev Dataset := List Reading

/-- Result type of `calculate_statistics`: the dictionary with keys
`avg_heart_rate`, `avg_systolic_bp`, `avg_glucose`. -/
structure Statistics where
  avg_heart_rate : Rat
  avg_systolic_bp : Rat
  avg_glucose : Rat
deriving Repr, DecidableEq

/-- Result type of `find_abnormal_readings`: the dictionary with keys
`high_heart_rate`, `high_blood_pressure`, `high_glucose`. -/
structure AbnormalCounts where
  high_heart_rate : Nat
  high_blood_pressure : Nat
  high_glucose : Nat
deriving Repr, DecidableEq

/-- `np.mean` over a column of `i4` values, in exact rational arithmetic:
the sum divided by the number of elements. -/
def npMean (xs : List Int) : Rat := (xs.sum : Rat) / (xs.length : Rat)

/-- Embedding of `calculate_statistics` (src lines 32-54): empty input
returns the all-zero dictionary before any division; otherwise each entry
is `np.mean` of the corresponding column. -/
def calculate_statistics (data : Dataset) : Statistics :=
  if data.length = 0 then
    { avg_heart_rate := 0, avg_systolic_bp := 0, avg_glucose := 0 }
  else
    { avg_heart_rate := npMean (data.map Reading.heart_rate)
      avg_systolic_bp := npMean (data.map Reading.blood_pressure_systolic)
      avg_glucose := npMean (data.map Reading.glucose_level) }

/-- Embedding of `find_abnormal_readings` (src lines 57-78): empty input
returns the all-zero dictionary; otherwise each entry is the sum of the
boolean mask `column > threshold`, i.e. a `countP`. -/
def find_abnormal_readings (data : Dataset) : AbnormalCounts :=
  if data.length = 0 then
    { high_heart_rate := 0, high_blood_pressure := 0, high_glucose := 0 }
  else
    { high_heart_rate := data.countP (fun r => decide (r.heart_rate > 90))
      high_blood_pressure :=
        data.countP (fun r => decide (r.blood_pressure_systolic > 130))
      high_glucose := data.countP (fun r => decide (r.glucose_level > 110)) }

/-- Round the fraction `n / d` (with `d > 0`) to the nearest natural
number, ties to even: the rounding CPython's `float.__format__` applies
when producing a fixed-point decimal string from a binary64 value.
`n / d < 1/2 ↔ 2*r < d` where `r = n % d`, so the three branches are
round down, round up, and the exact half tie broken to the even
neighbour. -/
def round1Nat (n d : Nat) : Nat :=
  let q := n / d
  let r := n % d
  if 2 * r < d then q
  else if d < 2 * r then q + 1
  else if q % 2 = 0 then q else q + 1

/-- Model of the Python format spec `:.1f`: the value `|x| =
x.num.natAbs / x.den` is scaled by ten, correctly rounded to an integer
(ties to even, matching CPython's correctly-rounded binary64-to-decimal
conversion), and printed with exactly one digit after the point; a
negative value gets a leading minus sign. -/
def fmt1 (x : Rat) : String :=
  let n := round1Nat (10 * x.num.natAbs) x.den
  let core := toString (n / 10) ++ "." ++ toString (n % 10)
  if x.num < 0 then "-" ++ core else core

/-- The content side of a `load_data` call: either the file is absent
(or unreadable), or it is present with the given list of lines. -/
inductive LoadInput where
  | missing
  | content (lines : List String)

/-- An exception escaping `load_data`: the `OSError`/`FileNotFoundError`
raised when the file cannot be opened (it carries the path); the
`ValueError` (`Some errors were detected!`) `np.genfromtxt` raises when
data rows do not all have the column count of the first data row (it
lists every offending row); the `IndexError`/`ValueError` raised during
conversion when the rows are uniformly narrower than the 8-field dtype
(the converters index past the row width, and no offending-row list is
produced); and the `OverflowError` raised at array construction when a
parsed integer does not fit the `i4` field. -/
inductive LoadError where
  | fileNotFound (path : String)
  | badColumnCount (badRows : List (List String))
  | conversionError (nbcols : Nat)
  | intOverflow
deriving Repr, DecidableEq

/-- Splitting one line at the delimiter `','`, as
`np.genfromtxt`'s `LineSplitter` does with `delimiter=','` (plain split,
no quoting). -/
def splitAux : List Char → List Char → List String
  | [], acc => [String.mk acc.reverse]
  | c :: cs, acc =>
    if c = ',' then String.mk acc.reverse :: splitAux cs []
    else splitAux cs (c :: acc)

/-- Split a line on commas. -/
def splitFields (line : String) : List String := splitAux line.data []

/-- The characters `LineSplitter` strips from both ends of a line:
exactly `' '`, `'\r'` and `'\n'` (Python `line.strip(" \r\n")`). -/
def isLineStrip (c : Char) : Bool := c = ' ' || c = '\r' || c = '\n'

/-- `line.strip(" \r\n")`, the stripping `np.genfromtxt`'s
`LineSplitter` applies to every line after comment chopping. -/
def stripLine (s : String) : String :=
  String.mk (((s.data.dropWhile isLineStrip).reverse.dropWhile
    isLineStrip).reverse)

/-- `line.split('#')[0]`: `np.genfromtxt`'s default `comments='#'` chops
every line at the first `'#'` before splitting. -/
def chopComment (s : String) : String :=
  String.mk (s.data.takeWhile (fun c => c ≠ '#'))

/-- One step of `np.genfromtxt`'s `LineSplitter`: chop the comment,
strip `" \r\n"`, skip the line if nothing remains, otherwise split on
the delimiter. -/
def splitLine (line : String) : Option (List String) :=
  let l := stripLine (chopComment line)
  if l = "" then none else some (splitFields l)

/-- The processed data rows of a file: skip the one header line
(`skip_header=1` consumes it raw), then apply the line splitter to every
line, dropping the lines that are empty after comment chopping and
stripping. -/
def procRows (ls : List String) : List (List String) :=
  (ls.drop 1).filterMap splitLine

/-- Python whitespace, as stripped by `int()` and `float()` around a
numeral: space, tab, LF, CR, vertical tab, form feed. -/
def isPyWs (c : Char) : Bool :=
  c = ' ' || c = '\t' || c = '\n' || c = '\r' ||
    c.toNat == 11 || c.toNat == 12

/-- Strip Python whitespace from both ends of a character list. -/
def pyStrip (l : List Char) : List Char :=
  ((l.dropWhile isPyWs).reverse.dropWhile isPyWs).reverse

/-- Parse a decimal integer literal the way Python's `int` does on a
field: optional surrounding whitespace, an optional sign, then at least
one digit; anything else is a conversion failure (`none`). (Numeral
underscores and non-ASCII digits, which Python also accepts, are not
modelled.) -/
def parseInt (s : String) : Option Int :=
  let core (ds : List Char) : Option Nat :=
    if ds.isEmpty then none
    else if ds.all Char.isDigit then
      some (ds.foldl (fun acc c => 10 * acc + (c.toNat - 48)) 0)
    else none
  match pyStrip s.data with
  | '-' :: ds => (core ds).map (fun n => -(n : Int))
  | '+' :: ds => (core ds).map (fun n => (n : Int))
  | ds => (core ds).map (fun n => (n : Int))

/-- The loose conversion `np.genfromtxt` applies to an `i4` field (its
default `loose=True`): the parsed integer, or the integer fill value
`-1` when the field does not convert. -/
def parseIntLoose (s : String) : Int := (parseInt s).getD (-1)

/-- Parse a plain decimal numeral (optional sign, digits, optional `.`
and digits) to an exact rational; `none` on failure. Models the float
conversion of an `f4` field; `np.genfromtxt`'s loose conversion turns a
failure into the fill value NaN, represented here as `none`. -/
def parseRatLoose (s : String) : Option Rat :=
  let digitsVal (ds : List Char) : Nat :=
    ds.foldl (fun acc c => 10 * acc + (c.toNat - 48)) 0
  let core (ds : List Char) : Option Rat :=
    match ds.splitOn '.' with
    | [as] =>
      if as.isEmpty then none
      else if as.all Char.isDigit then some ((digitsVal as : Int) : Rat)
      else none
    | [as, bs] =>
      if as.isEmpty ∧ bs.isEmpty then none
      else if as.all Char.isDigit ∧ bs.all Char.isDigit then
        some (mkRat (digitsVal (as ++ bs)) (10 ^ bs.length))
      else none
    | _ => none
  match pyStrip s.data with
  | '-' :: ds => (core ds).map (fun q => -q)
  | '+' :: ds => (core ds).map (fun q => q)
  | ds => (core ds).map (fun q => q)

/-- Truncate a string to its first `n` characters, as storing into a
fixed-width `U<n>` NumPy field does. -/
def takeChars (s : String) (n : Nat) : String := String.mk (s.data.take n)

/-- Convert one 8-field row to a `Reading`, per the structured dtype:
`U10`/`U20` strings are truncated to their field width, `i4` fields use
the loose integer conversion (fill `-1`), the `f4` field uses the loose
float conversion (fill NaN = `none`). -/
def parseReading : List String → Option Reading
  | [pid, ts, hr, bps, bpd, temp, gl, sid] =>
    some
      { patient_id := takeChars pid 10
        timestamp := takeChars ts 20
        heart_rate := parseIntLoose hr
        blood_pressure_systolic := parseIntLoose bps
        blood_pressure_diastolic := parseIntLoose bpd
        temperature := parseRatLoose temp
        glucose_level := parseIntLoose gl
        sensor_id := takeChars sid 10 }
  | _ => none

/-- The `i4` range test applied when the converted rows are stored into
the structured array (`np.array(data, dtype)` raises `OverflowError` for
a Python int outside the field's range). -/
def inI4 (z : Int) : Bool := decide (-(2 ^ 31) ≤ z ∧ z < 2 ^ 31)

/-- All four `i4` fields of a reading fit their 32-bit columns. -/
def readingInRange (r : Reading) : Bool :=
  inI4 r.heart_rate && inI4 r.blood_pressure_systolic &&
    inI4 r.blood_pressure_diastolic && inI4 r.glucose_level

/-- Embedding of `load_data` (src lines 13-29), i.e. of
`np.genfromtxt(filename, delimiter=',', dtype=dtype, skip_header=1)`
together with the file open. A missing/unreadable file raises. Otherwise
the header line is consumed raw, every further line is chopped at `'#'`
(default `comments='#'`), stripped of surrounding `" \r\n"`, skipped if
then empty, and split on commas. The expected column count is the first
processed data row's field count (`nbcols = len(first_values)`); if any
row's count differs, the whole load raises `ValueError` listing the
offending rows (`invalid_raise=True`). Conversion then indexes fields
`0..7` per the dtype: rows uniformly narrower than 8 raise during
conversion, rows wider than 8 have their extra columns silently
dropped, and each kept field converts loosely (an invalid numeric field
becomes the fill value, never an error, per `loose=True`). Finally,
storing into the `i4` columns raises `OverflowError` if a parsed
integer is out of 32-bit range. -/
def load_data (path : String) (input : LoadInput) : Except LoadError Dataset :=
  match input with
  | .missing => .error (.fileNotFound path)
  | .content ls =>
    match procRows ls with
    | [] => .ok []
    | first :: rest =>
      let bad :=
        (first :: rest).filter (fun r => decide (r.length ≠ first.length))
      if bad.isEmpty then
        if first.length < 8 then .error (.conversionError first.length)
        else
          let readings :=
            (first :: rest).filterMap (fun r => parseReading (r.take 8))
          if readings.all readingInRange then .ok readings
          else .error .intOverflow
      else .error (.badColumnCount bad)

/-- The `lines` list built by `generate_report` (src lines 92-106), one
entry per `lines.append`. -/
def generate_report_lines (stats : Statistics) (abnormal : AbnormalCounts)
    (total_readings : Nat) : List String :=
  [ "Health Sensor Data Analysis Report",
    String.mk (List.replicate 40 '='),
    "Total readings: " ++ toString total_readings,
    "",
    "Averages:",
    "  - Heart Rate (avg): " ++ fmt1 stats.avg_heart_rate ++ " bpm",
    "  - Systolic BP (avg): " ++ fmt1 stats.avg_systolic_bp ++ " mmHg",
    "  - Glucose (avg): " ++ fmt1 stats.avg_glucose ++ " mg/dL",
    "",
    "Abnormal reading counts:",
    "  - High heart rate (>90): " ++ toString abnormal.high_heart_rate,
    "  - High systolic BP (>130): " ++ toString abnormal.high_blood_pressure,
    "  - High glucose (>110): " ++ toString abnormal.high_glucose,
    String.mk (List.replicate 40 '=') ]

/-- Embedding of `generate_report` (src lines 81-108): the `lines` list
joined with `"\n".join(lines)`. -/
def generate_report (stats : Statistics) (abnormal : AbnormalCounts)
    (total_readings : Nat) : String :=
  String.intercalate "\n" (generate_report_lines stats abnormal total_readings)

/-- A filesystem state: the set of existing directories (as component
paths) and the files (association list from component paths to content;
the most recent write is the head, so `read` finds it first). -/
structure FS where
  dirs : List (List String)
  files : List (List String × String)

/-- `os.path.exists` on a directory path. -/
def FS.dirExists (fs : FS) (d : List String) : Prop := d ∈ fs.dirs

instance (fs : FS) (d : List String) : Decidable (fs.dirExists d) :=
  inferInstanceAs (Decidable (d ∈ fs.dirs))

/-- The content of the file at `p`, if one exists. -/
def FS.read (fs : FS) (p : List String) : Option String :=
  (fs.files.find? (fun e => decide (e.1 = p))).map (fun e => e.2)

/-- `open(filename, 'w')` followed by `f.write`: create or overwrite the
file at `p` with content `c`. -/
def FS.write (fs : FS) (p : List String) (c : String) : FS :=
  { fs with files := (p, c) :: fs.files }

/-- The nonempty prefixes of a component path: all its ancestors and the
path itself. -/
def pathPrefixes (d : List String) : List (List String) :=
  (List.range d.length).map (fun i => d.take (i + 1))

/-- `os.makedirs(d, exist_ok=True)`: create the directory and every
missing ancestor. -/
def makedirs (fs : FS) (d : List String) : FS :=
  { fs with dirs := pathPrefixes d ++ fs.dirs }

/-- Well-formedness of a filesystem state: the set of existing
directories is closed under taking ancestors, as it is on a real
filesystem. -/
def FS.prefixClosed (fs : FS) : Prop :=
  ∀ d ∈ fs.dirs, ∀ p ∈ pathPrefixes d, p ∈ fs.dirs

instance (fs : FS) : Decidable fs.prefixClosed :=
  inferInstanceAs (Decidable (∀ d ∈ fs.dirs, ∀ p ∈ pathPrefixes d, p ∈ fs.dirs))

/-- Embedding of `save_report` (src lines 111-125): compute the parent
directory (`os.path.dirname`), create it and its ancestors when it is
nonempty and does not yet exist, then write the report verbatim,
overwriting any existing file. -/
def save_report (report : String) (path : List String) (fs : FS) : FS :=
  let parent := path.dropLast
  let fs1 :=
    if parent ≠ [] ∧ ¬ fs.dirExists parent then makedirs fs parent else fs
  fs1.write path report

/-- The input path constant `data_file` of `main` (src line 130). -/
def data_file : String := "health_data.csv"

/-- The output path constant `out_file` of `main` (src line 131),
`'output/analysis_report.txt'`, as components. -/
def out_file : List String := ["output", "analysis_report.txt"]

/-- `str(e)` for the exceptions `load_data` can raise. -/
def LoadError.message : LoadError → String
  | .fileNotFound p =>
    "[Errno 2] No such file or directory: " ++ p
  | .badColumnCount bad =>
    "Some errors were detected! (" ++ toString bad.length ++
      " line(s) with a column count differing from the first data row)"
  | .conversionError n =>
    "tuple index out of range (rows have " ++ toString n ++
      " columns, dtype has 8 fields)"
  | .intOverflow =>
    "Python int too large to convert to C long"

/-- The observable outcome of one run of `main`: the final filesystem
state and the lines printed to stdout. -/
structure RunResult where
  fs : FS
  printed : List String

/-- Embedding of `main` (src lines 128-146): load, aborting with a
diagnostic on failure; otherwise compute statistics and abnormal counts,
take the total from `data.size`, render the report, save it, and print
the completion message. -/
def main (input : LoadInput) (fs : FS) : RunResult :=
  match load_data data_file input with
  | .error e =>
    { fs := fs
      printed := ["Error loading data from " ++ data_file ++ ": " ++ e.message] }
  | .ok data =>
    let stats := calculate_statistics data
    let abnormal := find_abnormal_readings data
    let total := data.length
    let report := generate_report stats abnormal total
    let fs1 := save_report report out_file fs
    { fs := fs1
      printed := ["Analysis complete. Report written to output/analysis_report.txt"] }

/-! ## Helper lemmas -/

/-- The spec's arithmetic mean of a numeric column: the sum of the
values divided by how many there are. -/
def arithmeticMean (xs : List Int) : Rat := (xs.sum : Rat) / (xs.length : Rat)

theorem intercalate_go_append (s : String) :
    ∀ (l : List String) (y x : String),
      String.intercalate.go (x ++ y) s l = x ++ String.intercalate.go y s l := by
  intro l
  induction l with
  | nil => intro y x; simp [String.intercalate.go]
  | cons b bs ih =>
    intro y x
    rw [String.intercalate.go, String.intercalate.go,
      String.append_assoc, String.append_assoc, ← String.append_assoc y]
    exact ih ((y ++ s) ++ b) x

theorem sep40_eq :
    String.mk (List.replicate 40 '=') =
      "========================================" := by decide

theorem countP_add_countP_not {α : Type} (p : α → Bool) (l : List α) :
    l.countP p + l.countP (fun a => !p a) = l.length := by
  induction l with
  | nil => rfl
  | cons a t ih => by_cases h : p a <;> simp [List.countP_cons, h] <;> omega

theorem read_save (report : String) (path : List String) (fs : FS) :
    (save_report report path fs).read path = some report := by
  unfold save_report FS.write FS.read
  by_cases h : path.dropLast ≠ [] ∧ ¬ fs.dirExists path.dropLast <;>
    simp [h, List.find?]

/-! ## The claims -/

/-- Claim C1: For every non-empty `Dataset`, `calculate_statistics` returns
`avg_heart_rate`, `avg_systolic_bp` and `avg_glucose` equal to the
arithmetic means of the `heart_rate`, `blood_pressure_systolic` and
`glucose_level` fields across all readings; for the empty `Dataset` it
returns the all-zero `Statistics` (its empty branch returns constants,
performing no division); being a total Lean function, it has no error
outcome. -/
theorem statistics_are_arithmetic_means (data : Dataset) :
    (data ≠ [] →
      calculate_statistics data =
        { avg_heart_rate := arithmeticMean (data.map Reading.heart_rate)
          avg_systolic_bp :=
            arithmeticMean (data.map Reading.blood_pressure_systolic)
          avg_glucose := arithmeticMean (data.map Reading.glucose_level) }) ∧
    calculate_statistics [] =
      { avg_heart_rate := 0, avg_systolic_bp := 0, avg_glucose := 0 } := by
  constructor
  · intro h
    rw [calculate_statistics,
      if_neg (fun h0 => h (List.length_eq_zero.mp h0))]
    rfl
  · rfl

/-- Witness for claim C1 at the concrete two-reading dataset with heart
rates 80 and 90. -/
theorem statistics_are_arithmetic_means_witness :
    calculate_statistics
        [⟨"p1", "t1", 80, 120, 80, some 37, 100, "s1"⟩,
         ⟨"p2", "t2", 90, 130, 85, some 37, 110, "s2"⟩] =
      { avg_heart_rate := arithmeticMean [80, 90]
        avg_systolic_bp := arithmeticMean [120, 130]
        avg_glucose := arithmeticMean [100, 110] } :=
  (statistics_are_arithmetic_means
      [⟨"p1", "t1", 80, 120, 80, some 37, 100, "s1"⟩,
       ⟨"p2", "t2", 90, 130, 85, some 37, 110, "s2"⟩]).1 (by decide)

/-- Claim C2: For every `Dataset`, `find_abnormal_readings` returns
`high_heart_rate` equal to the number of readings with `heart_rate`
strictly above 90, `high_blood_pressure` the number with
`blood_pressure_systolic` strictly above 130, and `high_glucose` the
number with `glucose_level` strictly above 110 (readings exactly at a
threshold fail the strict comparison, so they are not counted), and the
empty `Dataset` yields the all-zero counts. -/
theorem abnormal_counts_are_strict_threshold_counts (data : Dataset) :
    find_abnormal_readings data =
      { high_heart_rate :=
          (data.filter (fun r => decide (90 < r.heart_rate))).length
        high_blood_pressure :=
          (data.filter (fun r => decide (130 < r.blood_pressure_systolic))).length
        high_glucose :=
          (data.filter (fun r => decide (110 < r.glucose_level))).length } ∧
    find_abnormal_readings [] =
      { high_heart_rate := 0, high_blood_pressure := 0, high_glucose := 0 } := by
  refine ⟨?_, rfl⟩
  by_cases h : data.length = 0
  · rw [List.length_eq_zero.mp h]; rfl
  · rw [find_abnormal_readings, if_neg h]
    simp only [List.countP_eq_length_filter]

/-- Claim C8: `generate_report` is deterministic: two calls on equal
inputs produce equal (byte-identical) strings. -/
theorem generate_report_deterministic
    (s₁ s₂ : Statistics) (a₁ a₂ : AbnormalCounts) (t₁ t₂ : Nat)
    (hs : s₁ = s₂) (ha : a₁ = a₂) (ht : t₁ = t₂) :
    generate_report s₁ a₁ t₁ = generate_report s₂ a₂ t₂ := by
  rw [hs, ha, ht]

/-- Witness for claim C8 at concrete inputs. -/
theorem generate_report_deterministic_witness :
    generate_report ⟨1, 2, 3⟩ ⟨4, 5, 6⟩ 7 =
      generate_report ⟨1, 2, 3⟩ ⟨4, 5, 6⟩ 7 :=
  generate_report_deterministic ⟨1, 2, 3⟩ ⟨1, 2, 3⟩ ⟨4, 5, 6⟩ ⟨4, 5, 6⟩ 7 7
    rfl rfl rfl

/-- Claim C10: Each count returned by `find_abnormal_readings` is at most
the number of readings, which is exactly the total `main` passes to the
renderer and writes into the report; and each count plus the count of
its complement equals (so never exceeds) the dataset size. -/
theorem abnormal_counts_bounded_by_total (data : Dataset) :
    ((find_abnormal_readings data).high_heart_rate ≤ data.length ∧
     (find_abnormal_readings data).high_blood_pressure ≤ data.length ∧
     (find_abnormal_readings data).high_glucose ≤ data.length) ∧
    ((find_abnormal_readings data).high_heart_rate +
        data.countP (fun r => !decide (r.heart_rate > 90)) = data.length ∧
     (find_abnormal_readings data).high_blood_pressure +
        data.countP (fun r => !decide (r.blood_pressure_systolic > 130)) =
          data.length ∧
     (find_abnormal_readings data).high_glucose +
        data.countP (fun r => !decide (r.glucose_level > 110)) = data.length) ∧
    (∀ input fs, load_data data_file input = Except.ok data →
      (main input fs).fs.read out_file =
        some (generate_report (calculate_statistics data)
          (find_abnormal_readings data) data.length)) := by
  have hcounts : find_abnormal_readings data =
      { high_heart_rate := data.countP (fun r => decide (r.heart_rate > 90))
        high_blood_pressure :=
          data.countP (fun r => decide (r.blood_pressure_systolic > 130))
        high_glucose := data.countP (fun r => decide (r.glucose_level > 110)) } := by
    by_cases h : data.length = 0
    · rw [List.length_eq_zero.mp h]; rfl
    · rw [find_abnormal_readings, if_neg h]
  refine ⟨⟨?_, ?_, ?_⟩, ⟨?_, ?_, ?_⟩, ?_⟩
  · rw [hcounts]; exact List.countP_le_length _
  · rw [hcounts]; exact List.countP_le_length _
  · rw [hcounts]; exact List.countP_le_length _
  · rw [hcounts]; exact countP_add_countP_not _ data
  · rw [hcounts]; exact countP_add_countP_not _ data
  · rw [hcounts]; exact countP_add_countP_not _ data
  · intro input fs h
    simp only [main, h]
    exact read_save _ _ _

/-- Witness for claim C10: a one-reading dataset obtained from a concrete
successful load; the written report uses total `1`. -/
theorem abnormal_counts_bounded_by_total_witness :
    (main (.content ["h", "p1,t1,95,120,80,37.0,100,s1"])
        (⟨[], []⟩ : FS)).fs.read out_file =
      some (generate_report
        (calculate_statistics [⟨"p1", "t1", 95, 120, 80, some 37, 100, "s1"⟩])
        (find_abnormal_readings [⟨"p1", "t1", 95, 120, 80, some 37, 100, "s1"⟩])
        ([⟨"p1", "t1", 95, 120, 80, some 37, 100, "s1"⟩] : Dataset).length) :=
  (abnormal_counts_bounded_by_total
      [⟨"p1", "t1", 95, 120, 80, some 37, 100, "s1"⟩]).2.2
    (.content ["h", "p1,t1,95,120,80,37.0,100,s1"]) (⟨[], []⟩ : FS) (by rfl)

/-- Claim C3, counterexample: The report does not have the claimed
13-line layout: at concrete all-zero inputs it has 14 lines (the
`Averages:` and `Abnormal reading counts:` heading lines are part of the
layout), and the report string differs from the claimed layout (title,
separator, total, blank, three averages, blank, three counts,
separator). -/
theorem generate_report_not_thirteen_lines :
    (generate_report_lines ⟨0, 0, 0⟩ ⟨0, 0, 0⟩ 0).length = 14 ∧
    generate_report ⟨0, 0, 0⟩ ⟨0, 0, 0⟩ 0 ≠
      "Health Sensor Data Analysis Report\n========================================\nTotal readings: 0\n\n  - Heart Rate (avg): 0.0 bpm\n  - Systolic BP (avg): 0.0 mmHg\n  - Glucose (avg): 0.0 mg/dL\n\n  - High heart rate (>90): 0\n  - High systolic BP (>130): 0\n  - High glucose (>110): 0\n========================================" :=
  ⟨rfl, by decide⟩

/-- Claim C3, amended: For every `Statistics`, `AbnormalCounts` and total
count, `generate_report` produces exactly the 14-line layout of section
4.4: title, a separator of exactly 40 `=` characters, the
`Total readings: <total>` line, a blank line, the `Averages:` heading,
the three average lines, a blank line, the `Abnormal reading counts:`
heading, the three count lines, and a closing 40-`=` separator, joined
by single newline characters with no trailing newline. -/
theorem generate_report_layout
    (stats : Statistics) (abnormal : AbnormalCounts) (total : Nat) :
    generate_report stats abnormal total =
      "Health Sensor Data Analysis Report" ++ "\n" ++
      "========================================" ++ "\n" ++
      ("Total readings: " ++ toString total) ++ "\n" ++
      "" ++ "\n" ++
      "Averages:" ++ "\n" ++
      ("  - Heart Rate (avg): " ++ fmt1 stats.avg_heart_rate ++ " bpm") ++
        "\n" ++
      ("  - Systolic BP (avg): " ++ fmt1 stats.avg_systolic_bp ++ " mmHg") ++
        "\n" ++
      ("  - Glucose (avg): " ++ fmt1 stats.avg_glucose ++ " mg/dL") ++ "\n" ++
      "" ++ "\n" ++
      "Abnormal reading counts:" ++ "\n" ++
      ("  - High heart rate (>90): " ++
        toString abnormal.high_heart_rate) ++ "\n" ++
      ("  - High systolic BP (>130): " ++
        toString abnormal.high_blood_pressure) ++ "\n" ++
      ("  - High glucose (>110): " ++ toString abnormal.high_glucose) ++
        "\n" ++
      "========================================" ∧
    (generate_report_lines stats abnormal total).length = 14 := by
  refine ⟨?_, rfl⟩
  simp only [generate_report, generate_report_lines, sep40_eq,
    String.intercalate, String.intercalate.go]

/-- Claim C7, counterexample: Rendering the `Statistics` value
`{avg_heart_rate := 75.25, avg_systolic_bp := 120.04, avg_glucose :=
95.0}` does not display `75.3`: the correctly-rounded one-decimal
conversion breaks the exact tie `75.25` to the even neighbour `75.2`, so
the heart-rate line reads `75.2 bpm`, not `75.3 bpm`. -/
theorem render_75_25_displays_75_2 :
    (generate_report_lines ⟨mkRat 301 4, mkRat 3001 25, 95⟩ ⟨0, 0, 0⟩ 3)[5]? =
        some "  - Heart Rate (avg): 75.2 bpm" ∧
    (generate_report_lines ⟨mkRat 301 4, mkRat 3001 25, 95⟩ ⟨0, 0, 0⟩ 3)[5]? ≠
        some "  - Heart Rate (avg): 75.3 bpm" :=
  ⟨by decide, by decide⟩

/-- Claim C7, amended: Rendering the `Statistics` value
`{avg_heart_rate := 75.25, avg_systolic_bp := 120.04, avg_glucose :=
95.0}` displays the averages as exactly `75.2`, `120.0` and `95.0`:
one-decimal rounding with ties to even, applied consistently (the same
`fmt1` conversion) to each of the three averages. -/
theorem render_one_decimal_half_even :
    fmt1 (mkRat 301 4) = "75.2" ∧
    fmt1 (mkRat 3001 25) = "120.0" ∧
    fmt1 95 = "95.0" ∧
    (generate_report_lines ⟨mkRat 301 4, mkRat 3001 25, 95⟩ ⟨0, 0, 0⟩ 3)[5]? =
        some ("  - Heart Rate (avg): " ++ "75.2" ++ " bpm") ∧
    (generate_report_lines ⟨mkRat 301 4, mkRat 3001 25, 95⟩ ⟨0, 0, 0⟩ 3)[6]? =
        some ("  - Systolic BP (avg): " ++ "120.0" ++ " mmHg") ∧
    (generate_report_lines ⟨mkRat 301 4, mkRat 3001 25, 95⟩ ⟨0, 0, 0⟩ 3)[7]? =
        some ("  - Glucose (avg): " ++ "95.0" ++ " mg/dL") := by
  refine ⟨by decide, by decide, by decide, by decide, by decide, by decide⟩

/-- Claim C4, counterexample: A data row with the non-numeric value
`abc` in the numeric `heart_rate` column does not make the load fail:
`load_data` succeeds and produces a `Dataset` in which the unconvertible
field holds the integer fill value `-1` (`np.genfromtxt`'s default
`loose=True` conversion), contradicting the claim that any such row
yields a `LoadError`. -/
theorem nonnumeric_field_loads_with_fill :
    load_data data_file (.content ["h", "p1,t1,abc,120,80,37.0,100,s1"]) =
      Except.ok [⟨"p1", "t1", -1, 120, 80, some 37, 100, "s1"⟩] := rfl

/-- Claim C4, amended: `load_data` fails with a `LoadError` when the
file does not exist or is not readable (the error carries the path).
Data rows are preprocessed as `np.genfromtxt` does: each line is chopped
at the first `'#'`, stripped of surrounding spaces/CR/LF, and dropped if
then empty; the column-count baseline is the first remaining data row's
field count. The load fails, listing the offending rows, when any row's
column count differs from that baseline; it fails with a conversion
error when the rows are uniformly narrower than the 8-field schema; and
it fails with an overflow error when a parsed integer field is outside
the `i4` range. Otherwise — rows uniformly 8 columns or wider, integer
fields in range — the load succeeds, silently dropping any columns past
the eighth; a non-numeric value in a numeric column (one containing no
`'#'`) does not fail the load: the loose conversion turns it into the
column's fill value, `-1` for integer columns (`NaN`, modelled as
`none`, for the float column). -/
theorem load_error_conditions :
    (∀ path, load_data path .missing =
      Except.error (.fileNotFound path)) ∧
    (∀ path ls first rest, procRows ls = first :: rest →
      (∃ r ∈ rest, r.length ≠ first.length) →
      load_data path (.content ls) =
        Except.error (.badColumnCount
          ((first :: rest).filter
            (fun r => decide (r.length ≠ first.length))))) ∧
    (∀ path ls first rest, procRows ls = first :: rest →
      (∀ r ∈ rest, r.length = first.length) →
      first.length < 8 →
      load_data path (.content ls) =
        Except.error (.conversionError first.length)) ∧
    (∀ path ls first rest, procRows ls = first :: rest →
      (∀ r ∈ rest, r.length = first.length) →
      8 ≤ first.length →
      ((first :: rest).filterMap
          (fun r => parseReading (r.take 8))).all readingInRange = true →
      load_data path (.content ls) =
        Except.ok ((first :: rest).filterMap
          (fun r => parseReading (r.take 8)))) ∧
    (∀ path ls first rest, procRows ls = first :: rest →
      (∀ r ∈ rest, r.length = first.length) →
      8 ≤ first.length →
      ((first :: rest).filterMap
          (fun r => parseReading (r.take 8))).all readingInRange = false →
      load_data path (.content ls) = Except.error .intOverflow) ∧
    (∀ s, parseInt s = none → parseIntLoose s = -1) := by
  have huninil : ∀ (first : List String) (rest : List (List String)),
      (∀ r ∈ rest, r.length = first.length) →
      (first :: rest).filter
        (fun r => decide (r.length ≠ first.length)) = [] := by
    intro first rest huni
    rw [List.filter_eq_nil_iff]
    intro r hr
    rcases List.mem_cons.mp hr with h1 | h2
    · simp [h1]
    · simpa using huni r h2
  refine ⟨fun path => rfl, ?_, ?_, ?_, ?_, ?_⟩
  · rintro path ls first rest hrows ⟨r, hr, hlen⟩
    have hmem : r ∈ (first :: rest).filter
        (fun x => decide (x.length ≠ first.length)) :=
      List.mem_filter.mpr ⟨List.mem_cons_of_mem _ hr, by simpa using hlen⟩
    have hne : ((first :: rest).filter
        (fun x => decide (x.length ≠ first.length))).isEmpty = false := by
      rcases hf : (first :: rest).filter
          (fun x => decide (x.length ≠ first.length)) with _ | ⟨a, t⟩
      · rw [hf] at hmem; cases hmem
      · rw [hf]; rfl
    simp only [load_data, hrows, hne, Bool.false_eq_true, if_false]
  · intro path ls first rest hrows huni hlt
    simp only [load_data, hrows, huninil first rest huni,
      List.isEmpty_nil, if_true]
    rw [if_pos hlt]
  · intro path ls first rest hrows huni hge hall
    simp only [load_data, hrows, huninil first rest huni,
      List.isEmpty_nil, if_true]
    rw [if_neg (by omega), if_pos hall]
  · intro path ls first rest hrows huni hge hall
    simp only [load_data, hrows, huninil first rest huni,
      List.isEmpty_nil, if_true]
    rw [if_neg (by omega), if_neg (by simp [hall])]
  · intro s h
    simp [parseIntLoose, h]

/-- Witness for claim C4 as amended: a file whose second data row's
column count differs from the first's fails listing that row; uniform
2-column rows fail with the conversion error; a 9-column row loads
successfully with the ninth column dropped; an out-of-`i4`-range
heart rate fails with the overflow error; the unconvertible field `abc`
becomes the fill `-1`. -/
theorem load_error_conditions_witness :
    load_data data_file (.content ["h", "a,b", "c"]) =
      Except.error (.badColumnCount
        (([["a", "b"], ["c"]] : List (List String)).filter
          (fun r => decide (r.length ≠ (["a", "b"] : List String).length)))) ∧
    load_data data_file (.content ["h", "a,b"]) =
      Except.error (.conversionError (["a", "b"] : List String).length) ∧
    load_data data_file (.content ["h", "p1,t1,95,120,80,37.0,100,s1,x"]) =
      Except.ok (([["p1", "t1", "95", "120", "80", "37.0", "100", "s1", "x"]] :
          List (List String)).filterMap
        (fun r => parseReading (r.take 8))) ∧
    load_data data_file (.content ["h", "p1,t1,9999999999,120,80,37.0,100,s1"]) =
      Except.error .intOverflow ∧
    parseIntLoose "abc" = -1 :=
  ⟨load_error_conditions.2.1 data_file ["h", "a,b", "c"] ["a", "b"] [["c"]]
      rfl (by decide),
   load_error_conditions.2.2.1 data_file ["h", "a,b"] ["a", "b"] [] rfl
      (by decide) (by decide),
   load_error_conditions.2.2.2.1 data_file
      ["h", "p1,t1,95,120,80,37.0,100,s1,x"]
      ["p1", "t1", "95", "120", "80", "37.0", "100", "s1", "x"] [] rfl
      (by decide) (by decide) (by decide),
   load_error_conditions.2.2.2.2.1 data_file
      ["h", "p1,t1,9999999999,120,80,37.0,100,s1"]
      ["p1", "t1", "9999999999", "120", "80", "37.0", "100", "s1"] [] rfl
      (by decide) (by decide) (by decide),
   load_error_conditions.2.2.2.2.2 "abc" (by decide)⟩

/-- Claim C5: A file consisting of a header row and zero data rows loads
successfully as the empty `Dataset`; the pipeline then yields the
all-zero `Statistics` and `AbnormalCounts`, the written report is the
one rendered for the empty data with total `0`, and that report contains
the line `Total readings: 0`. -/
theorem header_only_yields_empty_dataset (header : String) (fs : FS) :
    load_data data_file (.content [header]) = Except.ok [] ∧
    calculate_statistics [] =
      { avg_heart_rate := 0, avg_systolic_bp := 0, avg_glucose := 0 } ∧
    find_abnormal_readings [] =
      { high_heart_rate := 0, high_blood_pressure := 0, high_glucose := 0 } ∧
    (main (.content [header]) fs).fs.read out_file =
      some (generate_report ⟨0, 0, 0⟩ ⟨0, 0, 0⟩ 0) ∧
    "Total readings: 0" ∈ generate_report_lines ⟨0, 0, 0⟩ ⟨0, 0, 0⟩ 0 := by
  refine ⟨rfl, rfl, rfl, ?_, by decide⟩
  have h : load_data data_file (.content [header]) = Except.ok [] := rfl
  simp only [main, h]
  exact read_save _ _ _

/-- Claim C6: Whenever the load step fails, `main` aborts the run: the
filesystem is left untouched (no output file is created at `out_file`
or anywhere else), the single diagnostic printed names the input path
and the underlying cause, and the run terminates as a handled result
rather than an unhandled exception. -/
theorem load_failure_aborts (input : LoadInput) (fs : FS) (e : LoadError)
    (h : load_data data_file input = Except.error e) :
    (main input fs).fs = fs ∧
    (main input fs).fs.read out_file = fs.read out_file ∧
    (main input fs).printed =
      ["Error loading data from " ++ data_file ++ ": " ++ e.message] := by
  simp [main, h]

/-- Witness for claim C6 at a missing input file and the empty
filesystem. -/
theorem load_failure_aborts_witness :
    (main .missing (⟨[], []⟩ : FS)).fs = (⟨[], []⟩ : FS) ∧
    (main .missing (⟨[], []⟩ : FS)).fs.read out_file =
      (⟨[], []⟩ : FS).read out_file ∧
    (main .missing (⟨[], []⟩ : FS)).printed =
      ["Error loading data from " ++ data_file ++ ": " ++
        (LoadError.fileNotFound data_file).message] :=
  load_failure_aborts .missing (⟨[], []⟩ : FS) (.fileNotFound data_file) rfl

/-- Claim C9: On a well-formed filesystem, `save_report` ensures the
output path's parent directory and every missing ancestor exist, writes
the report text verbatim (no added trailing newline: `read` returns
exactly the text) overwriting any existing file, and saving the same
report twice leaves the same content; consequently running the whole
pipeline twice on the same input leaves the output file with
byte-identical content. -/
theorem save_report_spec (report : String) (path : List String) (fs : FS)
    (hfs : fs.prefixClosed) :
    (∀ d ∈ pathPrefixes path.dropLast,
      (save_report report path fs).dirExists d) ∧
    (save_report report path fs).read path = some report ∧
    (save_report report path (save_report report path fs)).read path =
      some report ∧
    (∀ input, (main input (main input fs).fs).fs.read out_file =
      (main input fs).fs.read out_file) := by
  refine ⟨?_, read_save _ _ _, read_save _ _ _, ?_⟩
  · intro d hd
    simp only [save_report, FS.write, FS.dirExists, makedirs]
    split
    · exact List.mem_append_left _ hd
    · next hc =>
      rcases not_and_or.mp hc with hnil | hex
      · rw [not_not.mp hnil] at hd
        simp [pathPrefixes] at hd
      · exact hfs _ (not_not.mp hex) d hd
  · intro input
    rcases hload : load_data data_file input with e | data
    · simp [main, hload]
    · simp only [main, hload]
      rw [read_save, read_save]

/-- Witness for claim C9 at a concrete report, the default output path and
the empty (trivially well-formed) filesystem. -/
theorem save_report_spec_witness :
    (∀ d ∈ pathPrefixes out_file.dropLast,
      (save_report "r" out_file (⟨[], []⟩ : FS)).dirExists d) ∧
    (save_report "r" out_file (⟨[], []⟩ : FS)).read out_file = some "r" ∧
    (save_report "r" out_file
        (save_report "r" out_file (⟨[], []⟩ : FS))).read out_file =
      some "r" :=
  have h := save_report_spec "r" out_file (⟨[], []⟩ : FS) (by decide)
  ⟨h.1, h.2.1, h.2.2.1⟩

end HealthData
